import Mathlib

/-
Verification of the measurement extraction and validation engine of the
suihei-process repository (src/app.js), as a shallow embedding in Lean 4.

Conventions of the embedding:
* JavaScript numbers are modelled as exact rationals (ℚ).  The claims under
  study are algebraic (field routing, null propagation, inclusive band
  comparison, list aggregation) and do not hinge on binary floating point
  rounding.
* JavaScript `null`/`undefined` numeric slots are `Option ℚ` with `none`;
  an unparsable number (JS `NaN`, spec §7 "UnparsableNumber") is likewise
  modelled as `none`.
* Strings are processed as their character lists; `String.split`,
  `String.prototype.trim`, `parseFloat` and `parseInt` are modelled by the
  explicit char-list functions below (whitespace restricted to the space,
  tab, CR and LF characters that occur in measurement files; the legacy
  hexadecimal auto-detection of radix-free `parseInt` and the `Infinity`
  form of `parseFloat` are omitted, as no measurement line contains them).
-/

namespace App

set_option maxRecDepth 8000

/-- JS whitespace as relevant to the text files (space, tab, CR, LF). -/
def isWsCh (c : Char) : Bool := c = ' ' || c = '\t' || c = '\n' || c = '\r'

/-- `String.prototype.trim` on a character list. -/
def trimCh (l : List Char) : List Char :=
  ((l.dropWhile isWsCh).reverse.dropWhile isWsCh).reverse

/-- `String.prototype.split(sep)` for a one-character separator:
`"".split(";") = [""]`, `";".split(";") = ["", ""]`, etc. -/
def splitCh (sep : Char) : List Char → List (List Char)
  | [] => [[]]
  | c :: cs =>
    let r := splitCh sep cs
    if c = sep then [] :: r
    else
      match r with
      | [] => [[c]]
      | h :: t => (c :: h) :: t

/-- `needle` is a leading segment of `hay`. -/
def startsWithCh : List Char → List Char → Bool
  | [], _ => true
  | _ :: _, [] => false
  | a :: as, b :: bs => a = b && startsWithCh as bs

/-- `String.prototype.includes(needle)` on character lists. -/
def includesCh (needle : List Char) : List Char → Bool
  | [] => startsWithCh needle []
  | c :: t => startsWithCh needle (c :: t) || includesCh needle t

def isDigitCh (c : Char) : Bool := '0' ≤ c && c ≤ '9'

/-- Value of a list of decimal digit characters. -/
def natOfDigits (l : List Char) : Nat :=
  l.foldl (fun n c => 10 * n + (c.toNat - '0'.toNat)) 0

/-- JS `parseInt(s, 10)`: skip whitespace, optional sign, longest run of
decimal digits; `none` models `NaN` (no digits at all). -/
def parseIntCh (l : List Char) : Option Int :=
  let l1 := l.dropWhile isWsCh
  let sl : Int × List Char :=
    match l1 with
    | '-' :: r => (-1, r)
    | '+' :: r => (1, r)
    | _ => (1, l1)
  let ds := sl.2.takeWhile isDigitCh
  if ds = [] then none else some (sl.1 * (natOfDigits ds : Int))

/-- Exponent part of a JS float literal after the `e`/`E`: optional sign and
digits; a missing digit run contributes exponent `0` (as in `parseFloat`,
which then stops before the `e`). -/
def expDigits (r : List Char) : Int :=
  let sl : Int × List Char :=
    match r with
    | '-' :: t => (-1, t)
    | '+' :: t => (1, t)
    | _ => (1, r)
  let ds := sl.2.takeWhile isDigitCh
  if ds = [] then 0 else sl.1 * (natOfDigits ds : Int)

/-- JS `parseFloat`: skip whitespace, optional sign, longest prefix of the
form `digits [. digits] [e[sign]digits]`; `none` models `NaN` (no integer
and no fraction digits). -/
def parseFloatCh (l : List Char) : Option ℚ :=
  let l1 := l.dropWhile isWsCh
  let sl : ℚ × List Char :=
    match l1 with
    | '-' :: r => (-1, r)
    | '+' :: r => (1, r)
    | _ => (1, l1)
  let ip := sl.2.takeWhile isDigitCh
  let l3 := sl.2.dropWhile isDigitCh
  let fl : List Char × List Char :=
    match l3 with
    | '.' :: r => (r.takeWhile isDigitCh, r.dropWhile isDigitCh)
    | _ => ([], l3)
  if ip = [] && fl.1 = [] then none
  else
    let mant : ℚ := (natOfDigits ip : ℚ) + (natOfDigits fl.1 : ℚ) / (10 : ℚ) ^ fl.1.length
    let ex : Int :=
      match fl.2 with
      | 'e' :: r => expDigits r
      | 'E' :: r => expDigits r
      | _ => 0
    some (sl.1 * mant * (10 : ℚ) ^ ex)

/-- `rawDataType.replace(/[^A-Z0-9-]/g, "")` of the upload route
(src/app.js line 290): keep only `A`-`Z`, `0`-`9` and `-`. -/
def sanitizeTag (l : List Char) : List Char :=
  l.filter fun c => ('A' ≤ c && c ≤ 'Z') || ('0' ≤ c && c ≤ '9') || c = '-'

/-- One parsed measurement record (spec §3 DataPoint; src/app.js lines
1363-1375).  `index` is `none` when field 0 is not numeric (JS `NaN`:
`NaN === n` is false for every `n`, which `Option Int` equality mirrors). -/
structure DataPoint where
  index : Option Int
  data_type : String
  x : Option ℚ
  y : Option ℚ
  z : Option ℚ
  rot_x : Option ℚ
  rot_y : Option ℚ
  rot_z : Option ℚ
  note : String
  diameter : Option ℚ
  tolerance : Option ℚ
deriving DecidableEq

/-- `parseFloat(parts[k]) || null` of src/app.js lines 1379-1396: a missing
field or `NaN` gives `null`, and `0` is falsy in JS, so a parsed zero also
collapses to `null`. -/
def numField (parts : List (List Char)) (k : Nat) : Option ℚ :=
  match (parts.get? k).bind parseFloatCh with
  | none => none
  | some v => if v = 0 then none else some v

/-- Body of the `lines.forEach` of `parseTxtFile` (src/app.js lines
1355-1400) for one line: `none` when the line has fewer than 3
semicolon-separated fields (the line is skipped, no record). -/
def parseLine (line : List Char) : Option DataPoint :=
  let parts := splitCh ';' line
  if parts.length < 3 then none
  else
    let dataType := trimCh (parts.getD 1 [])
    let base : DataPoint :=
      { index := parseIntCh (parts.getD 0 [])
        data_type := ⟨dataType⟩
        x := none, y := none, z := none
        rot_x := none, rot_y := none, rot_z := none
        note := ""
        diameter := none, tolerance := none }
    some <|
      if includesCh "CIRCLE".data dataType || dataType == "PLANE".data then
        { base with
          x := numField parts 3, y := numField parts 4, z := numField parts 5
          rot_x := numField parts 6, rot_y := numField parts 7, rot_z := numField parts 8
          note := ⟨parts.getD 9 []⟩
          diameter := numField parts 10, tolerance := numField parts 11 }
      else if dataType == "PT-COMP".data then
        { base with x := numField parts 3, y := numField parts 4, z := numField parts 5 }
      else if dataType == "DISTANCE".data then
        { base with x := numField parts 2, y := numField parts 3, z := numField parts 4
                    diameter := numField parts 9 }
      else base

/-- `parseTxtFile` (src/app.js lines 1351-1403): split on newlines, keep the
lines whose trim is nonempty (the lines themselves stay untrimmed), parse
each. -/
def parseTxtFile (content : String) : List DataPoint :=
  ((splitCh '\n' content.data).filter fun l => !(trimCh l).isEmpty).filterMap parseLine

/-- `cleanValue` of the upload route (src/app.js lines 293-297): missing
field or empty after trim → `null`; otherwise `parseFloat` (an unparsable
value, JS `NaN`, is modelled as `none` as well). -/
def cleanValue (parts : List (List Char)) (k : Nat) : Option ℚ :=
  match parts.get? k with
  | none => none
  | some v =>
    let t := trimCh v
    if t.isEmpty then none else parseFloatCh t

/-- Body of the per-line loop of the PostgreSQL upload route (src/app.js
lines 280-375), producing the record the route inserts into `file_data`:
`none` when the line has fewer than 3 fields. -/
def uploadParseLine (line : List Char) : Option DataPoint :=
  let parts := splitCh ';' line
  if parts.length < 3 then none
  else
    let dataType := sanitizeTag (trimCh (parts.getD 1 []))
    let isCP : Bool := dataType == "CIRCLE".data || dataType == "PLANE".data
    some
      { index := some ((parseIntCh (parts.getD 0 [])).getD 0)
        data_type := ⟨dataType⟩
        x := if 5 ≤ parts.length then cleanValue parts 2 else none
        y := if 5 ≤ parts.length then cleanValue parts 3 else none
        z := if 5 ≤ parts.length then cleanValue parts 4 else none
        rot_x := if isCP && 8 ≤ parts.length then cleanValue parts 5 else none
        rot_y := if isCP && 8 ≤ parts.length then cleanValue parts 6 else none
        rot_z := if isCP && 8 ≤ parts.length then cleanValue parts 7 else none
        note := if isCP && 9 ≤ parts.length then ⟨trimCh (parts.getD 8 [])⟩ else ""
        diameter :=
          if dataType == "DISTANCE".data && 9 ≤ parts.length then cleanValue parts 8
          else if isCP && 10 ≤ parts.length then cleanValue parts 9
          else none
        tolerance := if isCP && 11 ≤ parts.length then cleanValue parts 10 else none }

/-- The upload route's full line processing (src/app.js lines 274-380):
lines are trimmed first, empties dropped, then each line is parsed. -/
def uploadParse (content : String) : List DataPoint :=
  (((splitCh '\n' content.data).map trimCh).filter fun l => !l.isEmpty).filterMap uploadParseLine

/-- One checkpoint cell of the report (spec §3 CheckpointResult). -/
structure CheckpointResult where
  value : String
  isValid : Bool
deriving DecidableEq

/-- One constituent of an AVERAGE rule (src/app.js lines 1122-1127). -/
structure AvgRef where
  index : Int
  dtype : String
  field : String
deriving DecidableEq

/-- The rule variants dispatched on `mapping.type` by `extractValue`
(src/app.js lines 1206-1233): `AVERAGE` (whose JS object also carries an
unused `absolute` flag), `MANUAL` and `VISUAL` (whose JS objects carry a
`PassFail` field name, never read), and the default direct lookup. -/
inductive Mapping where
  | direct (index : Int) (dtype : String) (field : String) (absolute : Bool)
  | average (refs : List AvgRef) (absolute : Bool)
  | manual (field : String)
  | visual (field : String)
deriving DecidableEq

/-- `measurementMapping` (src/app.js lines 1114-1141), in object literal
insertion order. -/
def measurementMapping : List (String × Mapping) :=
  [ ("A", .direct 1 "PT-COMP" "x" true)
  , ("B", .direct 9 "CIRCLE" "diameter" false)
  , ("C", .direct 1 "DISTANCE" "y" true)
  , ("D", .direct 4 "PT-COMP" "x" true)
  , ("E", .direct 8 "CIRCLE" "diameter" false)
  , ("F", .average [⟨2, "CIRCLE", "diameter"⟩, ⟨4, "CIRCLE", "diameter"⟩,
                    ⟨5, "CIRCLE", "diameter"⟩, ⟨6, "CIRCLE", "diameter"⟩] false)
  , ("G1", .direct 10 "CIRCLE" "diameter" false)
  , ("G2", .direct 11 "CIRCLE" "diameter" false)
  , ("G3", .direct 12 "CIRCLE" "diameter" false)
  , ("G4", .direct 13 "CIRCLE" "diameter" false)
  , ("H", .direct 2 "DISTANCE" "y" true)
  , ("I", .direct 15 "CIRCLE" "diameter" false)
  , ("J", .direct 7 "CIRCLE" "diameter" false)
  , ("K", .direct 2 "PT-COMP" "y" true)
  , ("L", .direct 14 "CIRCLE" "diameter" false)
  , ("M", .manual "PassFail")
  , ("N", .visual "PassFail") ]

/-- `validationRanges` (src/app.js lines 1093-1111): the tolerance band per
label; `'M'` and `'N'` are the explicit `null` entries, and a key absent
from the JS object (`undefined`) is equally falsy, so both are `none`. -/
def validationRanges : String → Option (ℚ × ℚ)
  | "A" => some (8.0, 8.4)
  | "B" => some (37.2, 37.8)
  | "C" => some (15.7, 16.1)
  | "D" => some (23.9, 24.3)
  | "E" => some (11.2, 11.4)
  | "F" => some (3.1, 3.3)
  | "G1" => some (7.8, 8.2)
  | "G2" => some (7.8, 8.2)
  | "G3" => some (7.8, 8.2)
  | "G4" => some (7.8, 8.2)
  | "H" => some (4.9, 5.1)
  | "I" => some (29.8, 30.2)
  | "J" => some (154.9, 155.9)
  | "K" => some (82.8, 83.4)
  | "L" => some (121.8, 122.8)
  | _ => none

/-- `point[field]` as read by `getValue`: the mapping table only ever names
the numeric slots (in fact only `x`, `y` and `diameter`); any other name
(an absent JS property, `undefined`) yields `null`. -/
def getField (p : DataPoint) (f : String) : Option ℚ :=
  if f = "x" then p.x
  else if f = "y" then p.y
  else if f = "z" then p.z
  else if f = "rot_x" then p.rot_x
  else if f = "rot_y" then p.rot_y
  else if f = "rot_z" then p.rot_z
  else if f = "diameter" then p.diameter
  else if f = "tolerance" then p.tolerance
  else none

/-- `getValue` (src/app.js lines 1193-1201): first point matching the
compound key `(index, data_type)`; a missing point, or a `null`/`'-'`
field, yields `null` (numeric slots here are numbers-or-null, so the JS
`'-'` sentinel check and the final `parseFloat` are identities). -/
def getValue (dataPoints : List DataPoint) (index : Int) (type : String)
    (field : String) : Option ℚ :=
  match dataPoints.find? fun p => p.index == some index && p.data_type == type with
  | none => none
  | some p => getField p field

/-- `extractValue` (src/app.js lines 1206-1233). -/
def extractValue (dataPoints : List DataPoint) : Mapping → Option ℚ
  | .average refs _ =>
    let values := refs.filterMap fun c => getValue dataPoints c.index c.dtype c.field
    if values.length = 0 then none
    else some (values.sum / (values.length : ℚ))
  | .manual _ => none
  | .visual _ => none
  | .direct index dtype field absolute =>
    match getValue dataPoints index dtype field with
    | none => none
    | some v => some (if absolute then |v| else v)

/-- Three-digit zero padding of the fractional part for `toFixed(3)`. -/
def pad3 (r : Nat) : String :=
  if r < 10 then "00" ++ toString r
  else if r < 100 then "0" ++ toString r
  else toString r

/-- JS `value.toFixed(3)`: sign of the value, then the magnitude rounded to
the nearest thousandth (ties away from zero) printed with exactly three
decimals. -/
def toFixed3 (q : ℚ) : String :=
  let n : Nat := (⌊(1000 : ℚ) * |q| + 1 / 2⌋).toNat
  let s : String := if q < 0 then "-" else ""
  s ++ toString (n / 1000) ++ "." ++ pad3 (n % 1000)

/-- Loop body of `processFileDataForMeasurements` (src/app.js lines
1242-1257) for one label: extract, validate against the band (inclusive,
`null` always valid, no band always valid), format. -/
def checkResult (dataPoints : List DataPoint) (key : String) (m : Mapping) :
    CheckpointResult :=
  let value := extractValue dataPoints m
  let isValid : Bool :=
    match validationRanges key, value with
    | some (mn, mx), some v => decide (mn ≤ v) && decide (v ≤ mx)
    | _, _ => true
  { value := match value with
      | some v => toFixed3 v
      | none => "-"
    isValid := isValid }

/-- `processFileDataForMeasurements` (src/app.js lines 1239-1261): one
`CheckpointResult` per key of `measurementMapping`, in key order. -/
def processFileDataForMeasurements (dataPoints : List DataPoint) :
    List (String × CheckpointResult) :=
  measurementMapping.map fun km => (km.1, checkResult dataPoints km.1 km.2)

/-- `processGValues` (src/app.js lines 1268-1287).  The result is an
`Option` because the final branch returns `measurements['G1']`, which is
`undefined` when no `G1` entry exists (in the pipeline it always does). -/
def processGValues (measurements : List (String × CheckpointResult)) :
    Option CheckpointResult :=
  let gKeys : List String := ["G1", "G2", "G3", "G4"]
  let invalid := gKeys.filter fun k =>
    match measurements.lookup k with
    | some r => !r.isValid && r.value != "-"
    | none => false
  if invalid.length > 0 then
    some { value := String.intercalate "," invalid, isValid := false }
  else
    measurements.lookup "G1"

/-- The summary route's per-file report assembly (src/app.js lines
1864-1873): the JS object `{...measurements, 'G': gValue}` — every key of
`measurements` with its (defined) value, then the new key `'G'` (whose
value is `undefined` if `processGValues` fell through to a missing `G1`). -/
def assembleFileData (dataPoints : List DataPoint) :
    List (String × Option CheckpointResult) :=
  let measurements := processFileDataForMeasurements dataPoints
  (measurements.map fun kr => (kr.1, some kr.2)) ++ [("G", processGValues measurements)]

/-- The four G sub-checkpoints with their mapping rules, as in
`measurementMapping`. -/
def gTable : List (String × Mapping) :=
  [ ("G1", .direct 10 "CIRCLE" "diameter" false)
  , ("G2", .direct 11 "CIRCLE" "diameter" false)
  , ("G3", .direct 12 "CIRCLE" "diameter" false)
  , ("G4", .direct 13 "CIRCLE" "diameter" false) ]

/-- The G sub-labels whose extracted value is non-null and out of band, in
ascending label order — the "failing sub-labels" of spec §4.4. -/
def gFailing (dataPoints : List DataPoint) : List String :=
  (gTable.filter fun km =>
    (extractValue dataPoints km.2).isSome && !(checkResult dataPoints km.1 km.2).isValid).map
    Prod.fst

/-- Concrete inputs used by the concrete-evaluation theorems below. -/
def exLine : String := "5;CIRCLE;1.0;2.0;3.0;0;0;0;sample;12.345;0.05"

/-- What the upload route's inline parser makes of `exLine`. -/
def exUploadDP : DataPoint :=
  ⟨some 5, "CIRCLE", some 1, some 2, some 3, some 0, some 0, some 0, "sample",
   some 12.345, some 0.05⟩

/-- What `parseTxtFile` makes of `exLine`. -/
def exTxtDP : DataPoint :=
  ⟨some 5, "CIRCLE", some 2, some 3, none, none, none, none, "12.345", some 0.05, none⟩

/-- DataPoint set realising the spec's G-aggregation failing example:
G1 = 8.000 (valid), G2 = 9.000 (invalid against 7.8-8.2), G3 missing,
G4 = 8.100 (valid). -/
def dpsG : List DataPoint :=
  [ ⟨some 10, "CIRCLE", none, none, none, none, none, none, "", some 8, none⟩
  , ⟨some 11, "CIRCLE", none, none, none, none, none, none, "", some 9, none⟩
  , ⟨some 13, "CIRCLE", none, none, none, none, none, none, "", some 8.1, none⟩ ]

/-- A single G1-style point sitting exactly on the lower band edge. -/
def dpsEdge : List DataPoint :=
  [⟨some 10, "CIRCLE", none, none, none, none, none, none, "", some 7.8, none⟩]

/-- A point that matches no CIRCLE lookup (wrong type tag). -/
def dpsOther : List DataPoint :=
  [⟨some 1, "PT-COMP", none, none, none, none, none, none, "", none, none⟩]

/-- A single CIRCLE point with diameter 5, for the average witness. -/
def dpsAvg : List DataPoint :=
  [⟨some 9, "CIRCLE", none, none, none, none, none, none, "", some 5, none⟩]

/-- Records produced by the two parsers for the line `1;CIRCLE&;0`. -/
def dpuTag : DataPoint :=
  ⟨some 1, "CIRCLE", none, none, none, none, none, none, "", none, none⟩

def dptTag : DataPoint :=
  ⟨some 1, "CIRCLE&", none, none, none, none, none, none, "", none, none⟩

/- ===================== helper lemmas ===================== -/

theorem toFixed3_ne_dash (q : ℚ) : toFixed3 q ≠ "-" := by
  intro h
  have hm : '.' ∈ (toFixed3 q).data := by
    unfold toFixed3
    simp [String.data_append]
  rw [h] at hm
  simp at hm

theorem isValid_of_none (dps : List DataPoint) (key : String) (m : Mapping)
    (h : extractValue dps m = none) : (checkResult dps key m).isValid = true := by
  cases hr : validationRanges key <;> simp [checkResult, h, hr]

theorem value_of_some (dps : List DataPoint) (key : String) (m : Mapping) (v : ℚ)
    (h : extractValue dps m = some v) : (checkResult dps key m).value = toFixed3 v := by
  simp [checkResult, h]

theorem gcond_eq (dps : List DataPoint) (k : String) (m : Mapping) :
    ((!(checkResult dps k m).isValid) && ((checkResult dps k m).value != "-"))
      = ((extractValue dps m).isSome && !(checkResult dps k m).isValid) := by
  cases hv : extractValue dps m with
  | none => rw [isValid_of_none dps k m hv]; simp [hv]
  | some v =>
    rw [value_of_some dps k m v hv]
    simp [hv, bne_iff_ne, toFixed3_ne_dash, Bool.and_comm]

theorem lookup_G1 (dps : List DataPoint) :
    (processFileDataForMeasurements dps).lookup "G1"
      = some (checkResult dps "G1" (Mapping.direct 10 "CIRCLE" "diameter" false)) := rfl

theorem lookup_G2 (dps : List DataPoint) :
    (processFileDataForMeasurements dps).lookup "G2"
      = some (checkResult dps "G2" (Mapping.direct 11 "CIRCLE" "diameter" false)) := rfl

theorem lookup_G3 (dps : List DataPoint) :
    (processFileDataForMeasurements dps).lookup "G3"
      = some (checkResult dps "G3" (Mapping.direct 12 "CIRCLE" "diameter" false)) := rfl

theorem lookup_G4 (dps : List DataPoint) :
    (processFileDataForMeasurements dps).lookup "G4"
      = some (checkResult dps "G4" (Mapping.direct 13 "CIRCLE" "diameter" false)) := rfl

/-- `processGValues ∘ processFileDataForMeasurements` characterised through
`gFailing`: the aggregate is the G1 row exactly when no sub-label fails,
and otherwise the comma-joined failing label list marked invalid. -/
theorem gvals_char (dps : List DataPoint) :
    processGValues (processFileDataForMeasurements dps)
      = if gFailing dps = [] then (processFileDataForMeasurements dps).lookup "G1"
        else some ⟨String.intercalate "," (gFailing dps), false⟩ := by
  simp only [processGValues, lookup_G1, lookup_G2, lookup_G3, lookup_G4, gFailing, gTable,
    List.filter_cons, List.filter_nil, gcond_eq]
  cases hb1 : (extractValue dps (Mapping.direct 10 "CIRCLE" "diameter" false)).isSome &&
      !(checkResult dps "G1" (Mapping.direct 10 "CIRCLE" "diameter" false)).isValid <;>
    cases hb2 : (extractValue dps (Mapping.direct 11 "CIRCLE" "diameter" false)).isSome &&
      !(checkResult dps "G2" (Mapping.direct 11 "CIRCLE" "diameter" false)).isValid <;>
    cases hb3 : (extractValue dps (Mapping.direct 12 "CIRCLE" "diameter" false)).isSome &&
      !(checkResult dps "G3" (Mapping.direct 12 "CIRCLE" "diameter" false)).isValid <;>
    cases hb4 : (extractValue dps (Mapping.direct 13 "CIRCLE" "diameter" false)).isSome &&
      !(checkResult dps "G4" (Mapping.direct 13 "CIRCLE" "diameter" false)).isValid <;>
    simp [hb1, hb2, hb3, hb4, lookup_G1]

/- ===================== claim theorems ===================== -/

/-- C3: for any label, a null extracted value is always reported valid
(band or no band), and when a band `{min,max}` is configured a non-null
extracted value is valid iff `min ≤ v ∧ v ≤ max`, both endpoints
inclusive. -/
theorem C3_tolerance_validator (dps : List DataPoint) (key : String) (m : Mapping) :
    (extractValue dps m = none → (checkResult dps key m).isValid = true) ∧
    (∀ mn mx v : ℚ, validationRanges key = some (mn, mx) → extractValue dps m = some v →
      ((checkResult dps key m).isValid = true ↔ mn ≤ v ∧ v ≤ mx)) := by
  refine ⟨fun h => isValid_of_none dps key m h, fun mn mx v hr hv => ?_⟩
  simp [checkResult, hr, hv]

/-- Witness for C3 at label G1 (band 7.8-8.2): the boundary value 7.8 is
valid, and the empty point set (null value) is valid. -/
theorem C3_tolerance_validator_witness :
    (checkResult dpsEdge "G1" (Mapping.direct 10 "CIRCLE" "diameter" false)).isValid = true ∧
    (checkResult [] "G1" (Mapping.direct 10 "CIRCLE" "diameter" false)).isValid = true := by
  constructor
  · exact ((C3_tolerance_validator dpsEdge "G1"
      (Mapping.direct 10 "CIRCLE" "diameter" false)).2 7.8 8.2 7.8 rfl rfl).mpr
      (by norm_num)
  · exact (C3_tolerance_validator [] "G1"
      (Mapping.direct 10 "CIRCLE" "diameter" false)).1 rfl

/-- C4: if no G sub-label has a non-null invalid value, the composite G is
the G1 result verbatim; otherwise it is the ascending comma-joined list of
failing sub-labels with `isValid = false`. -/
theorem C4_g_aggregation (dps : List DataPoint) :
    (gFailing dps = [] →
      processGValues (processFileDataForMeasurements dps)
        = (processFileDataForMeasurements dps).lookup "G1") ∧
    (gFailing dps ≠ [] →
      processGValues (processFileDataForMeasurements dps)
        = some ⟨String.intercalate "," (gFailing dps), false⟩) := by
  constructor <;> intro h <;> rw [gvals_char] <;> simp [h]

/-- C6: a direct lookup on an `(index, typeTag)` pair matched by no point
extracts null, and the resulting cell is the vacuously valid `"-"`,
whatever the label's band situation. -/
theorem C6_missing_lookup (dps : List DataPoint) (i : Int) (t f : String) (a : Bool)
    (key : String) (h : ∀ p ∈ dps, ¬(p.index = some i ∧ p.data_type = t)) :
    extractValue dps (Mapping.direct i t f a) = none ∧
    checkResult dps key (Mapping.direct i t f a) = ⟨"-", true⟩ := by
  have hf : dps.find? (fun p => p.index == some i && p.data_type == t) = none :=
    List.find?_eq_none.mpr (by intro p hp; simpa using h p hp)
  have hg : getValue dps i t f = none := by simp [getValue, hf]
  have he : extractValue dps (Mapping.direct i t f a) = none := by
    simp [extractValue, hg]
  refine ⟨he, ?_⟩
  cases hr : validationRanges key <;> simp [checkResult, he, hr]

/-- Witness for C6: a PT-COMP point does not satisfy a CIRCLE lookup, so
label G1 (which has a band) still gets the valid `"-"` cell. -/
theorem C6_missing_lookup_witness :
    extractValue dpsOther (Mapping.direct 10 "CIRCLE" "diameter" false) = none ∧
    checkResult dpsOther "G1" (Mapping.direct 10 "CIRCLE" "diameter" false) = ⟨"-", true⟩ :=
  C6_missing_lookup dpsOther 10 "CIRCLE" "diameter" false "G1" (by decide)

/-- C7: an Average rule resolves its refs as un-flagged direct lookups,
drops the nulls, is null iff every ref is null, returns a single resolved
value unchanged, never consults the absolute flag, and otherwise returns
the arithmetic mean. -/
theorem C7_average_rule (dps : List DataPoint) (refs : List AvgRef) (a : Bool) :
    (extractValue dps (Mapping.average refs a) = none ↔
      ∀ c ∈ refs, getValue dps c.index c.dtype c.field = none) ∧
    (∀ v : ℚ, (refs.filterMap fun c => getValue dps c.index c.dtype c.field) = [v] →
      extractValue dps (Mapping.average refs a) = some v) ∧
    (∀ b : Bool, extractValue dps (Mapping.average refs a)
        = extractValue dps (Mapping.average refs b)) ∧
    ((refs.filterMap fun c => getValue dps c.index c.dtype c.field) ≠ [] →
      extractValue dps (Mapping.average refs a) =
        some ((refs.filterMap fun c => getValue dps c.index c.dtype c.field).sum /
          ((refs.filterMap fun c => getValue dps c.index c.dtype c.field).length : ℚ))) := by
  have e1 : extractValue dps (Mapping.average refs a)
      = (if (refs.filterMap fun c => getValue dps c.index c.dtype c.field).length = 0
         then none
         else some ((refs.filterMap fun c => getValue dps c.index c.dtype c.field).sum /
           ((refs.filterMap fun c => getValue dps c.index c.dtype c.field).length : ℚ))) := rfl
  refine ⟨?_, ?_, fun b => rfl, ?_⟩
  · rw [e1, ← List.filterMap_eq_nil_iff]
    cases refs.filterMap fun c => getValue dps c.index c.dtype c.field <;> simp
  · intro v hv
    rw [e1, hv]
    simp
  · intro h
    rw [e1, if_neg (by simpa [List.length_eq_zero] using h)]

/-- Witness for C7: one resolved constituent (diameter 5 at index 9) comes
back unchanged even with the absolute flag raised. -/
theorem C7_average_rule_witness :
    extractValue dpsAvg (Mapping.average [⟨9, "CIRCLE", "diameter"⟩] true) = some 5 :=
  (C7_average_rule dpsAvg [⟨9, "CIRCLE", "diameter"⟩] true).2.1 5 rfl

/-- C8: a line with fewer than 3 semicolon-separated fields produces no
record in either parser, and the 2-field line `"1;X"` yields zero
DataPoints. -/
theorem C8_short_line_dropped (line : List Char)
    (h : (splitCh ';' line).length < 3) :
    parseLine line = none ∧ uploadParseLine line = none ∧
    parseTxtFile "1;X" = [] ∧ uploadParse "1;X" = [] := by
  refine ⟨?_, ?_, by decide, by decide⟩
  · unfold parseLine
    simp [h]
  · unfold uploadParseLine
    simp [h]

/-- Witness for C8 at the spec's example line `"1;X"`. -/
theorem C8_short_line_dropped_witness :
    parseLine "1;X".data = none ∧ uploadParseLine "1;X".data = none ∧
    parseTxtFile "1;X" = [] ∧ uploadParse "1;X" = [] :=
  C8_short_line_dropped "1;X".data (by decide)

/-- C10: the Manual and Visual rules of labels M and N always extract null
and carry no band, so both report entries are the constant
`{value := "-", isValid := true}` for every DataPoint set. -/
theorem C10_manual_visual_constant (dps : List DataPoint) :
    (processFileDataForMeasurements dps).lookup "M" = some ⟨"-", true⟩ ∧
    (processFileDataForMeasurements dps).lookup "N" = some ⟨"-", true⟩ ∧
    (assembleFileData dps).lookup "M" = some (some ⟨"-", true⟩) ∧
    (assembleFileData dps).lookup "N" = some (some ⟨"-", true⟩) :=
  ⟨rfl, rfl, rfl, rfl⟩

/-- Witness for C4 at the spec's failing example: G1 = 8.000 valid,
G2 = 9.000 invalid against 7.8-8.2, G3 missing, G4 = 8.100 valid gives the
composite `{value := "G2", isValid := false}`. -/
theorem C4_g_aggregation_witness :
    processGValues (processFileDataForMeasurements dpsG) = some ⟨"G2", false⟩ := by
  have e1 : extractValue dpsG (Mapping.direct 10 "CIRCLE" "diameter" false) = some 8 := rfl
  have e2 : extractValue dpsG (Mapping.direct 11 "CIRCLE" "diameter" false) = some 9 := rfl
  have e3 : extractValue dpsG (Mapping.direct 12 "CIRCLE" "diameter" false) = none := rfl
  have e4 : extractValue dpsG (Mapping.direct 13 "CIRCLE" "diameter" false) = some 8.1 := rfl
  have i1 : (checkResult dpsG "G1" (Mapping.direct 10 "CIRCLE" "diameter" false)).isValid
      = (decide ((7.8 : ℚ) ≤ 8) && decide ((8 : ℚ) ≤ 8.2)) := rfl
  have i2 : (checkResult dpsG "G2" (Mapping.direct 11 "CIRCLE" "diameter" false)).isValid
      = (decide ((7.8 : ℚ) ≤ 9) && decide ((9 : ℚ) ≤ 8.2)) := rfl
  have i4 : (checkResult dpsG "G4" (Mapping.direct 13 "CIRCLE" "diameter" false)).isValid
      = (decide ((7.8 : ℚ) ≤ 8.1) && decide ((8.1 : ℚ) ≤ 8.2)) := rfl
  have v1 : (decide ((7.8 : ℚ) ≤ 8) && decide ((8 : ℚ) ≤ 8.2)) = true := by
    rw [decide_eq_true (by norm_num : (7.8 : ℚ) ≤ 8),
      decide_eq_true (by norm_num : (8 : ℚ) ≤ 8.2)]
    rfl
  have v2 : (decide ((7.8 : ℚ) ≤ 9) && decide ((9 : ℚ) ≤ 8.2)) = false := by
    rw [decide_eq_false (by norm_num : ¬((9 : ℚ) ≤ 8.2))]
    simp
  have v4 : (decide ((7.8 : ℚ) ≤ 8.1) && decide ((8.1 : ℚ) ≤ 8.2)) = true := by
    rw [decide_eq_true (by norm_num : (7.8 : ℚ) ≤ 8.1),
      decide_eq_true (by norm_num : (8.1 : ℚ) ≤ 8.2)]
    rfl
  have hf : gFailing dpsG = ["G2"] := by
    simp only [gFailing, gTable, List.filter_cons, List.filter_nil, e1, e2, e3, e4,
      i1, i2, i4, v1, v2, v4]
    simp
  have h2 := (C4_g_aggregation dpsG).2 (by rw [hf]; simp)
  rw [h2, hf]
  rfl

/-- C1: evaluation of the summary route's report assembly: the assembled
object keeps all 17 per-label entries, G1-G4 included, and appends the
composite G, for 18 externally visible keys — the spread
`{...measurements, 'G': gValue}` does not remove the G1-G4 entries the
code comment says it replaces. -/
theorem C1_report_keys_eval :
    (assembleFileData []).map Prod.fst
      = ["A", "B", "C", "D", "E", "F", "G1", "G2", "G3", "G4",
         "H", "I", "J", "K", "L", "M", "N", "G"] ∧
    "G1" ∈ (assembleFileData []).map Prod.fst ∧
    (assembleFileData []).lookup "G1" = some (some ⟨"-", true⟩) := by
  refine ⟨rfl, by decide, rfl⟩

/- ============ concrete parser evaluations (C2, C5, C9) ============ -/

theorem splitPartsEx : splitCh ';' exLine.data =
    ["5".data, "CIRCLE".data, "1.0".data, "2.0".data, "3.0".data, "0".data, "0".data,
     "0".data, "sample".data, "12.345".data, "0.05".data] := by decide

theorem parseLine_ex : parseLine exLine.data = some exTxtDP := by
  have d1 : natOfDigits ['5'] = 5 := by decide
  have d2 : natOfDigits ['1'] = 1 := by decide
  have d3 : natOfDigits ['0'] = 0 := by decide
  have d4 : natOfDigits ['2'] = 2 := by decide
  have d5 : natOfDigits ['3'] = 3 := by decide
  have d6 : natOfDigits ['1', '2'] = 12 := by decide
  have d7 : natOfDigits ['3', '4', '5'] = 345 := by decide
  have d8 : natOfDigits ['0', '5'] = 5 := by decide
  simp only [parseLine, splitPartsEx]
  norm_num +decide [trimCh, isWsCh, List.dropWhile, includesCh, startsWithCh,
    numField, parseFloatCh, isDigitCh, expDigits, List.takeWhile, parseIntCh,
    d1, d2, d3, d4, d5, d6, d7, d8, exTxtDP]

theorem uploadParseLine_ex : uploadParseLine exLine.data = some exUploadDP := by
  have d1 : natOfDigits ['5'] = 5 := by decide
  have d2 : natOfDigits ['1'] = 1 := by decide
  have d3 : natOfDigits ['0'] = 0 := by decide
  have d4 : natOfDigits ['2'] = 2 := by decide
  have d5 : natOfDigits ['3'] = 3 := by decide
  have d6 : natOfDigits ['1', '2'] = 12 := by decide
  have d7 : natOfDigits ['3', '4', '5'] = 345 := by decide
  have d8 : natOfDigits ['0', '5'] = 5 := by decide
  simp only [uploadParseLine, splitPartsEx]
  norm_num +decide [trimCh, isWsCh, List.dropWhile, sanitizeTag, cleanValue,
    parseFloatCh, isDigitCh, expDigits, List.takeWhile, parseIntCh,
    d1, d2, d3, d4, d5, d6, d7, d8, exUploadDP]

theorem parseTxtFile_ex : parseTxtFile exLine = [exTxtDP] := by
  have hfil : (splitCh '\n' exLine.data).filter (fun l => !(trimCh l).isEmpty)
      = [exLine.data] := by decide
  rw [parseTxtFile, hfil]
  simp only [List.filterMap_cons, List.filterMap_nil, parseLine_ex]

theorem uploadParse_ex : uploadParse exLine = [exUploadDP] := by
  have hfil : ((splitCh '\n' exLine.data).map trimCh).filter (fun l => !l.isEmpty)
      = [exLine.data] := by decide
  rw [uploadParse, hfil]
  simp only [List.filterMap_cons, List.filterMap_nil, uploadParseLine_ex]

/-- C2 (amended): the upload route's inline parser maps fields 2-10 to
x, y, z, rotX, rotY, rotZ, note, diameter, tolerance and parses the
spec's example line to exactly the claimed DataPoint; the engine's
`parseTxtFile` instead maps fields 3-11 (skipping an unused field 2) and
collapses zero and unparsable fields to null, so the same line parses to
`{index := 5, typeTag := "CIRCLE", x := 2, y := 3, z := null,
rots := null, note := "12.345", diameter := 0.05, tolerance := null}`. -/
theorem C2_field_layout :
    uploadParse exLine = [exUploadDP] ∧ parseTxtFile exLine = [exTxtDP] :=
  ⟨uploadParse_ex, parseTxtFile_ex⟩

/-- C2 counterexample: `parseTxtFile` does not parse the spec's example
line to the claimed DataPoint (already its x field is 2, not 1, and its z
field is null, not 3). -/
theorem C2_counterexample : parseTxtFile exLine ≠ [exUploadDP] := by
  rw [parseTxtFile_ex]
  intro h
  have h2 : exTxtDP = exUploadDP := by injection h
  have h3 := congrArg DataPoint.z h2
  simp [exTxtDP, exUploadDP] at h3

/-- C5 (amended): the upload route's inline parser derives the stored
type tag by trimming field 1 and stripping every character outside
`[A-Z0-9-]`, while `parseTxtFile` only trims field 1 and strips nothing. -/
theorem C5_sanitize (line : List Char) (dpu dpt : DataPoint)
    (hu : uploadParseLine line = some dpu) (ht : parseLine line = some dpt) :
    dpu.data_type = ⟨sanitizeTag (trimCh ((splitCh ';' line).getD 1 []))⟩ ∧
    dpt.data_type = ⟨trimCh ((splitCh ';' line).getD 1 [])⟩ := by
  constructor
  · simp only [uploadParseLine] at hu
    split at hu
    · exact absurd hu (by simp)
    · cases hu
      rfl
  · simp only [parseLine] at ht
    split at ht
    · exact absurd ht (by simp)
    · cases ht
      split
      · rfl
      · split
        · rfl
        · split <;> rfl

/-- Witness for C5 at the line `1;CIRCLE&;0`: the upload parser stores
`CIRCLE`, `parseTxtFile` stores the raw trimmed `CIRCLE&`. -/
theorem C5_sanitize_witness :
    dpuTag.data_type = ⟨sanitizeTag (trimCh ((splitCh ';' "1;CIRCLE&;0".data).getD 1 []))⟩ ∧
    dptTag.data_type = ⟨trimCh ((splitCh ';' "1;CIRCLE&;0".data).getD 1 [])⟩ :=
  C5_sanitize "1;CIRCLE&;0".data dpuTag dptTag (by decide) (by decide)

/-- C5 counterexample: on the line `1;CIRCLE&;0`, whose field 1 is
`CIRCLE&`, `parseTxtFile` stores type tag `CIRCLE&`, not the sanitized
`CIRCLE` the claim prescribes for every line. -/
theorem C5_counterexample :
    (parseTxtFile "1;CIRCLE&;0").map (fun dp => dp.data_type) = ["CIRCLE&"] ∧
    String.mk (sanitizeTag (trimCh "CIRCLE&".data)) = "CIRCLE" ∧
    ("CIRCLE&" : String) ≠ "CIRCLE" := by
  refine ⟨by decide, by decide, by decide⟩

/- ===================== C9: the two parsers ===================== -/

theorem splitCh_length (sep : Char) (l : List Char) :
    (splitCh sep l).length = l.count sep + 1 := by
  induction l with
  | nil => rfl
  | cons c t ih =>
    by_cases hc : c = sep
    · subst hc
      simp [splitCh, List.count_cons, ih]
    · rcases hr : splitCh sep t with _ | ⟨h, t2⟩
      · rw [hr] at ih
        simp at ih
      · rw [hr] at ih
        simp only [List.length_cons] at ih
        simp [splitCh, hc, hr, List.count_cons]
        omega

theorem count_dropWhile_ws (l : List Char) :
    ((l.dropWhile isWsCh).count ';') = l.count ';' := by
  induction l with
  | nil => rfl
  | cons c t ih =>
    by_cases hc : isWsCh c = true
    · have hcs : ¬(c = ';') := by
        intro hceq
        subst hceq
        simp [isWsCh] at hc
      simp [List.dropWhile_cons, hc, List.count_cons, hcs, ih]
    · simp [List.dropWhile_cons, hc]

theorem count_trimCh (l : List Char) : (trimCh l).count ';' = l.count ';' := by
  unfold trimCh
  rw [List.count_reverse, count_dropWhile_ws, List.count_reverse, count_dropWhile_ws]

theorem splitCh_trimCh_length (l : List Char) :
    (splitCh ';' (trimCh l)).length = (splitCh ';' l).length := by
  rw [splitCh_length, splitCh_length, count_trimCh]

theorem parseLine_isSome (l : List Char) :
    (parseLine l).isSome = !decide ((splitCh ';' l).length < 3) := by
  simp only [parseLine]
  split
  · simp [*]
  · simp [*]

theorem uploadParseLine_isSome (l : List Char) :
    (uploadParseLine l).isSome = !decide ((splitCh ';' l).length < 3) := by
  simp only [uploadParseLine]
  split
  · simp [*]
  · simp [*]

theorem length_filterMap_congr {α β γ : Type} (L : List α) (f : α → Option β)
    (g : α → Option γ) (h : ∀ a ∈ L, (f a).isSome = (g a).isSome) :
    (L.filterMap f).length = (L.filterMap g).length := by
  induction L with
  | nil => rfl
  | cons a t ih =>
    have ha := h a (by simp)
    have ht : ∀ x ∈ t, (f x).isSome = (g x).isSome := fun x hx => h x (by simp [hx])
    cases hfa : f a <;> cases hga : g a <;> rw [hfa, hga] at ha
    · simp [List.filterMap_cons, hfa, hga, ih ht]
    · simp at ha
    · simp at ha
    · simp [List.filterMap_cons, hfa, hga, ih ht]

/-- C9 (amended): for every input text the engine's `parseTxtFile` and the
upload route's inline parser produce records for exactly the same lines —
the two DataPoint sequences always have equal length (per-record contents
can differ, see the counterexample). -/
theorem C9_same_line_count (content : String) :
    (parseTxtFile content).length = (uploadParse content).length := by
  unfold parseTxtFile uploadParse
  rw [List.filter_map, List.filterMap_map]
  have hp : ((fun l => !l.isEmpty) ∘ trimCh) = fun l => !(trimCh l).isEmpty := rfl
  rw [hp]
  refine length_filterMap_congr _ _ _ ?_
  intro a ha
  rw [parseLine_isSome]
  have hu : ((uploadParseLine ∘ trimCh) a).isSome
      = !decide ((splitCh ';' (trimCh a)).length < 3) := uploadParseLine_isSome (trimCh a)
  rw [hu, splitCh_trimCh_length]

/-- C9 counterexample: on the line `1;CIRCLE&;0` the two parsers disagree
(the upload parser sanitizes the type tag to `CIRCLE`, `parseTxtFile`
keeps `CIRCLE&`), so they do not compute the same DataPoint sequence. -/
theorem C9_counterexample : parseTxtFile "1;CIRCLE&;0" ≠ uploadParse "1;CIRCLE&;0" := by
  decide

end App
